import Mathlib

/-!
Verification of the Cadence persistence consistency core: the workflow
operation-mode validator, the Postgres domain / domain-metadata plugin, and
the Postgres shards plugin with its fencing-token discipline.

The operation-mode validator's implementation file is not part of the
source tree here; only its exhaustive test
(`common/persistence/operationModeValidator_test.go`) is.  The test's
expectation tables determine the validator's result for every mode and
participant layout it exercises, so the embedding below follows those
tables, falling back to the specification's decision tables (§4.3) only
for combinations the test does not reach.
-/

namespace Cadence

/-- State of a workflow execution record: the four values of the Go
constants WorkflowStateCreated, WorkflowStateRunning,
WorkflowStateCompleted, WorkflowStateZombie. -/
inductive WorkflowState where
  | created
  | running
  | completed
  | zombie
  deriving DecidableEq, Repr, Fintype

/-- Modes of the create-workflow operation family. -/
inductive CreateWorkflowMode where
  | brandNew
  | workflowIDReuse
  | continueAsNew
  | zombie
  deriving DecidableEq, Repr, Fintype

/-- Modes of the update-workflow operation family. -/
inductive UpdateWorkflowMode where
  | updateCurrent
  | bypassCurrent
  | ignoreCurrent
  deriving DecidableEq, Repr, Fintype

/-- Modes of the conflict-resolve operation family. -/
inductive ConflictResolveWorkflowMode where
  | updateCurrent
  | bypassCurrent
  deriving DecidableEq, Repr, Fintype

/-- Result of a validator call: the Go functions return either a nil error
(here `ok`) or the typed InvalidModeState rejection (here
`invalidModeState`). -/
inductive ValidationResult where
  | ok
  | invalidModeState
  deriving DecidableEq, Repr

/-- Modelled from the spec: the implementation of
`ValidateCreateWorkflowModeState` is not under the source tree, only its
test.  For create modes BrandNew / WorkflowIDReuse / ContinueAsNew the new
execution must be Created or Running; for mode Zombie it must be Zombie
(test TestCreateMode_UpdateCurrent and TestCreateMode_BypassCurrent, which
enumerate all 16 mode/state combinations, agreeing with spec §4.3). -/
def ValidateCreateWorkflowModeState
    (mode : CreateWorkflowMode) (newState : WorkflowState) : ValidationResult :=
  match mode with
  | .brandNew | .workflowIDReuse | .continueAsNew =>
    match newState with
    | .created | .running => .ok
    | _ => .invalidModeState
  | .zombie =>
    match newState with
    | .zombie => .ok
    | _ => .invalidModeState

/-- Modelled from the spec: the implementation of
`ValidateUpdateWorkflowModeState` is not under the source tree, only its
test.  The mandatory current-execution mutation state and the optional
new-execution snapshot state are validated per mode.  Expectation tables
of TestUpdateMode_UpdateCurrent, TestUpdateMode_BypassCurrent and
TestUpdateMode_IgnoreCurrent; where the test is silent (IgnoreCurrent on
states other than Completed/Running) the spec's §4.3 rows apply.  Note the
test requires the new execution in BypassCurrent mode to be Zombie, which
overrides the spec's table. -/
def ValidateUpdateWorkflowModeState
    (mode : UpdateWorkflowMode) (currentState : WorkflowState)
    (newState : Option WorkflowState) : ValidationResult :=
  match mode with
  | .updateCurrent =>
    match newState with
    | none =>
      if currentState = .zombie then .invalidModeState else .ok
    | some ns =>
      if (currentState = .completed ∨ currentState = .zombie)
          ∧ (ns = .created ∨ ns = .running) then .ok else .invalidModeState
  | .bypassCurrent =>
    match newState with
    | none =>
      if currentState = .completed ∨ currentState = .zombie then .ok
      else .invalidModeState
    | some ns =>
      if (currentState = .completed ∨ currentState = .zombie) ∧ ns = .zombie
      then .ok else .invalidModeState
  | .ignoreCurrent =>
    match newState with
    | none => .ok
    | some _ => .invalidModeState

/-- Modelled from the spec: the implementation of
`ValidateConflictResolveWorkflowModeState` is not under the source tree,
only its test.  A mandatory reset-execution snapshot state, an optional
new-execution snapshot state and an optional current-execution mutation
state are validated per mode, each participant contributing one
conjunctive constraint.  Expectation tables of
TestConflictResolveMode_UpdateCurrent and
TestConflictResolveMode_BypassCurrent; in UpdateCurrent mode the test
requires the reset execution to be Completed whenever a new execution is
supplied (only ≠ Zombie otherwise), and in BypassCurrent mode it requires
reset = Completed and new = Zombie when a new execution is supplied — both
override the spec's table.  The BypassCurrent row with a current-execution
mutation is absent from both the test and the spec's table; it is
modelled as invalid, since bypass mode must not touch the current
record. -/
def ValidateConflictResolveWorkflowModeState
    (mode : ConflictResolveWorkflowMode) (resetState : WorkflowState)
    (newState : Option WorkflowState) (currentState : Option WorkflowState) :
    ValidationResult :=
  match mode with
  | .updateCurrent =>
    let resetOK : Bool :=
      match newState with
      | none => resetState ≠ .zombie
      | some _ => resetState = .completed
    let newOK : Bool :=
      match newState with
      | none => true
      | some ns => ns = .created ∨ ns = .running
    let curOK : Bool :=
      match currentState with
      | none => true
      | some cs => cs = .completed ∨ cs = .zombie
    if resetOK ∧ newOK ∧ curOK then .ok else .invalidModeState
  | .bypassCurrent =>
    match currentState with
    | some _ => .invalidModeState
    | none =>
      match newState with
      | none =>
        if resetState = .completed ∨ resetState = .zombie then .ok
        else .invalidModeState
      | some ns =>
        if resetState = .completed ∧ ns = .zombie then .ok
        else .invalidModeState

/-- Errors surfaced by the Postgres domain plugin: `noRows` is the driver's
sql.ErrNoRows for a single-row GET matching nothing, `missingArgs` is the
package-level errMissingArgs ("missing one or more args for API"). -/
inductive SqlError where
  | noRows
  | missingArgs
  deriving DecidableEq, Repr

/-- Row of the singleton domain_metadata table, Go
sqlplugin.DomainMetadataRow with its NotificationVersion int64 field
(modelled on unbounded Int: the counter starts at 0 and moves by single
increments, far from the int64 range). -/
structure DomainMetadataRow where
  notificationVersion : Int
  deriving DecidableEq, Repr

/-- UpdateDomainMetadata executes updateDomainMetadataQuery, an UPDATE that
sets notification_version to row.NotificationVersion+1 on the row whose
stored notification_version equals row.NotificationVersion.  Given the
stored counter value, it returns the new stored value together with the
number of rows affected (the sql.Result callers inspect to detect a version
conflict). -/
def UpdateDomainMetadata (stored : Int) (row : DomainMetadataRow) :
    Int × Nat :=
  if stored = row.notificationVersion then (row.notificationVersion + 1, 1)
  else (stored, 0)

/-- Counter value after k successful bumps starting from v0: each bump reads
the current stored value (spec §4.2 lock-then-bump sequence) and presents it
as the expected version to `UpdateDomainMetadata`. -/
def bumpSeq (v0 : Int) : Nat → Int
  | 0 => v0
  | k + 1 => (UpdateDomainMetadata (bumpSeq v0 k) ⟨bumpSeq v0 k⟩).1

/-- LockDomainMetadata executes lockDomainMetadataQuery (SELECT
notification_version ... FOR UPDATE), reading the stored value into a local
row; the Go method returns only the error, so the value read is discarded.
The metadata table state is `some v` when the singleton row exists with
notification_version v, `none` when it is absent. -/
def LockDomainMetadata (table : Option Int) : Except SqlError Unit :=
  match table with
  | some _ => Except.ok ()
  | none => Except.error SqlError.noRows

/-- SelectFromDomainMetadata executes getDomainMetadataQuery and returns the
row holding the stored notification_version. -/
def SelectFromDomainMetadata (table : Option Int) :
    Except SqlError DomainMetadataRow :=
  match table with
  | some v => Except.ok ⟨v⟩
  | none => Except.error SqlError.noRows

/-- Row of the shards table, Go sqlplugin.ShardsRow: shard_id key, range_id
fencing token, opaque data payload with its encoding tag. -/
structure ShardsRow where
  shardID : Int
  rangeID : Int
  data : List Nat
  dataEncoding : String
  deriving DecidableEq, Repr

/-- UpdateShards executes updateShardQry: SET range_id, data, data_encoding
on the row whose shard_id matches; the UPDATE itself carries no condition on
range_id.  Connection routing via GetDBShardIDFromHistoryShardID picks a
database connection and does not affect row semantics, so it is omitted. -/
def UpdateShards (stored : ShardsRow) (row : ShardsRow) : ShardsRow :=
  if stored.shardID = row.shardID then
    { stored with
        rangeID := row.rangeID
        data := row.data
        dataEncoding := row.dataEncoding }
  else stored

/-- WriteLockShards executes lockShardQry (SELECT range_id FROM shards WHERE
shard_id = $1 FOR UPDATE), returning the stored range_id of the shard under
an exclusive row lock. -/
def WriteLockShards (stored : ShardsRow) (filterShardID : Int) :
    Except SqlError Int :=
  if stored.shardID = filterShardID then Except.ok stored.rangeID
  else Except.error SqlError.noRows

/-- Outcome of the fenced shard update: `fenced` is the Fenced /
shard-ownership-lost rejection. -/
inductive ShardUpdateResult where
  | ok
  | fenced
  deriving DecidableEq, Repr

/-- Modelled from the spec: the shard-manager transaction performing the
fencing comparison is not under the source tree; spec §4.1 specifies a row
lock read immediately before the write in the same transaction.  The
transaction locks the shard row, compares the stored range_id with the
expected value supplied by the caller, returns Fenced without mutating
anything on mismatch, and applies `UpdateShards` on match. -/
def updateShardGuarded (stored : ShardsRow) (expectedRangeID : Int)
    (row : ShardsRow) : ShardsRow × ShardUpdateResult :=
  if stored.rangeID = expectedRangeID then (UpdateShards stored row, .ok)
  else (stored, .fenced)

/-- Row of the domains table, Go sqlplugin.DomainRow. -/
structure DomainRow where
  id : String
  name : String
  isGlobal : Bool
  data : List Nat
  dataEncoding : String
  deriving DecidableEq, Repr

/-- Filter argument of SelectFromDomain, Go sqlplugin.DomainFilter; nil
pointer fields are `none`. -/
structure DomainFilter where
  id : Option String
  name : Option String
  greaterThanID : Option String
  pageSize : Option Int
  deriving DecidableEq, Repr

/-- Queries the domain read API can issue against the driver, with their
bound arguments. -/
inductive DomainQuery where
  | byID (shardID : Int) (id : String)
  | byName (shardID : Int) (name : String)
  | list (shardID : Int) (pageSize : Int)
  | listRange (shardID : Int) (greaterThanID : String) (pageSize : Int)
  deriving DecidableEq, Repr

/-- Package constant shardID = 54321 bound into every Postgres domain
query. -/
def shardID : Int := 54321

/-- Guard filter.PageSize != nil && *filter.PageSize > 0 of the Go
switch. -/
def pageSizeSet (filter : DomainFilter) : Bool :=
  match filter.pageSize with
  | some p => decide (0 < p)
  | none => false

/-- Keyed single-row lookup selectFromDomain: queries by id when the ID
filter is set (the ID case of the Go switch comes first, so ID takes
precedence over Name), else by name when the Name filter is set; on driver
success the one row found is returned as a one-element slice.  When neither
key is set (unreachable through SelectFromDomain's guard) the Go code issues
no query and returns the zero-valued row with a nil error.  The database is
the list of domains-table rows of shard 54321; alongside the result, the
list of queries issued is returned. -/
def selectFromDomain (db : List DomainRow) (filter : DomainFilter) :
    Except SqlError (List DomainRow) × List DomainQuery :=
  match filter.id with
  | some i =>
    (match db.find? (fun r => r.id = i) with
      | some r => Except.ok [r]
      | none => Except.error SqlError.noRows,
     [DomainQuery.byID shardID i])
  | none =>
    match filter.name with
    | some n =>
      (match db.find? (fun r => r.name = n) with
        | some r => Except.ok [r]
        | none => Except.error SqlError.noRows,
       [DomainQuery.byName shardID n])
    | none =>
      (Except.ok [{ id := "", name := "", isGlobal := false, data := [],
                    dataEncoding := "" }], [])

/-- List query selectAllFromDomain: ranged listing when GreaterThanID is
set, plain listing otherwise; the driver returns the matching rows in table
order (the table is kept ordered by id) limited to PageSize. -/
def selectAllFromDomain (db : List DomainRow) (filter : DomainFilter) :
    Except SqlError (List DomainRow) × List DomainQuery :=
  let ps : Int := filter.pageSize.getD 0
  match filter.greaterThanID with
  | some g =>
    (Except.ok ((db.filter (fun r => g < r.id)).take ps.toNat),
     [DomainQuery.listRange shardID g ps])
  | none =>
    (Except.ok (db.take ps.toNat), [DomainQuery.list shardID ps])

/-- SelectFromDomain dispatches per the Go switch: keyed lookup when the ID
or Name filter is set, list query when PageSize is set and positive, and
errMissingArgs, with no query issued, otherwise. -/
def SelectFromDomain (db : List DomainRow) (filter : DomainFilter) :
    Except SqlError (List DomainRow) × List DomainQuery :=
  if filter.id.isSome || filter.name.isSome then
    selectFromDomain db filter
  else if pageSizeSet filter then
    selectAllFromDomain db filter
  else
    (Except.error SqlError.missingArgs, [])

/-- C1: for each create mode in BrandNew / WorkflowIDReuse / ContinueAsNew and
every new-execution state, `ValidateCreateWorkflowModeState` accepts exactly
when the state is Created or Running; for mode Zombie it accepts exactly when
the state is Zombie; every one of the remaining mode/state combinations is
rejected with InvalidModeState. -/
theorem claim_C1_create_mode_state_table :
    ∀ (m : CreateWorkflowMode) (s : WorkflowState),
      (ValidateCreateWorkflowModeState m s = .ok ↔
        ((m = .brandNew ∨ m = .workflowIDReuse ∨ m = .continueAsNew)
            ∧ (s = .created ∨ s = .running))
        ∨ (m = .zombie ∧ s = .zombie))
      ∧ (ValidateCreateWorkflowModeState m s = .invalidModeState ↔
        ¬ (((m = .brandNew ∨ m = .workflowIDReuse ∨ m = .continueAsNew)
            ∧ (s = .created ∨ s = .running))
          ∨ (m = .zombie ∧ s = .zombie))) := by
  decide

/-- C2: in mode UpdateCurrent, `ValidateUpdateWorkflowModeState` with only a
current-execution mutation accepts exactly when the current state is not
Zombie; with both a current mutation and a new-execution snapshot it accepts
exactly when the current state is Completed or Zombie and the new state is
Created or Running. -/
theorem claim_C2_update_current_table :
    ∀ (sc sn : WorkflowState),
      (ValidateUpdateWorkflowModeState .updateCurrent sc none = .ok ↔
        sc ≠ .zombie)
      ∧ (ValidateUpdateWorkflowModeState .updateCurrent sc (some sn) = .ok ↔
        (sc = .completed ∨ sc = .zombie) ∧ (sn = .created ∨ sn = .running)) := by
  decide

/-- C3 counterexample: `ValidateConflictResolveWorkflowModeState` in mode
BypassCurrent rejects a Running reset execution, both alone and together with
a Zombie new execution, contradicting the claim that reset ∈ {Running,
Completed} is accepted and in particular that (BypassCurrent, Running,
Zombie, nil) is accepted. -/
theorem claim_C3_counterexample :
    ValidateConflictResolveWorkflowModeState .bypassCurrent .running
        (some .zombie) none = .invalidModeState
    ∧ ValidateConflictResolveWorkflowModeState .bypassCurrent .running
        none none = .invalidModeState := by
  decide

/-- C3 amended: in mode BypassCurrent, with only a reset state the validator
accepts exactly when the reset state is Completed or Zombie; with a reset and
a new state it accepts exactly when the reset state is Completed and the new
state is Zombie. -/
theorem claim_C3_amended_bypass_current :
    ∀ (sr sn : WorkflowState),
      (ValidateConflictResolveWorkflowModeState .bypassCurrent sr none none
          = .ok ↔ (sr = .completed ∨ sr = .zombie))
      ∧ (ValidateConflictResolveWorkflowModeState .bypassCurrent sr (some sn)
          none = .ok ↔ (sr = .completed ∧ sn = .zombie)) := by
  decide

/-- C4 counterexample: `ValidateUpdateWorkflowModeState` in mode
BypassCurrent rejects a Completed current mutation together with a Created
new execution, contradicting the claim that new ∈ {Created, Running} is
accepted there. -/
theorem claim_C4_counterexample :
    ValidateUpdateWorkflowModeState .bypassCurrent .completed (some .created)
      = .invalidModeState := by
  decide

/-- C4 amended: in mode BypassCurrent, with only a current mutation the
validator accepts exactly when the current state is Completed or Zombie; with
both a current mutation and a new execution it accepts exactly when the
current state is Completed or Zombie and the new state is Zombie. -/
theorem claim_C4_amended_bypass_current :
    ∀ (sc sn : WorkflowState),
      (ValidateUpdateWorkflowModeState .bypassCurrent sc none = .ok ↔
        (sc = .completed ∨ sc = .zombie))
      ∧ (ValidateUpdateWorkflowModeState .bypassCurrent sc (some sn) = .ok ↔
        ((sc = .completed ∨ sc = .zombie) ∧ sn = .zombie)) := by
  decide

/-- C5 counterexample: `ValidateConflictResolveWorkflowModeState` in mode
UpdateCurrent rejects a Running reset execution together with a Created new
execution, contradicting the claim that reset ≠ Zombie and new ∈ {Created,
Running} suffice for acceptance when a new execution is supplied. -/
theorem claim_C5_counterexample :
    ValidateConflictResolveWorkflowModeState .updateCurrent .running
      (some .created) none = .invalidModeState := by
  decide

/-- C5 amended: in mode UpdateCurrent, with only a reset state the validator
accepts exactly when the reset state is not Zombie; with a reset and a new
state it accepts exactly when the reset state is Completed and the new state
is Created or Running; with a reset and a current-mutation state it accepts
exactly when the reset state is not Zombie and the current state is Completed
or Zombie; with all three it accepts exactly when all three constraints hold,
so a rejection happens exactly when some participant violates its rule. -/
theorem claim_C5_amended_update_current :
    ∀ (sr sn sc : WorkflowState),
      (ValidateConflictResolveWorkflowModeState .updateCurrent sr none none
          = .ok ↔ sr ≠ .zombie)
      ∧ (ValidateConflictResolveWorkflowModeState .updateCurrent sr (some sn)
          none = .ok ↔ (sr = .completed ∧ (sn = .created ∨ sn = .running)))
      ∧ (ValidateConflictResolveWorkflowModeState .updateCurrent sr none
          (some sc) = .ok ↔ (sr ≠ .zombie ∧ (sc = .completed ∨ sc = .zombie)))
      ∧ (ValidateConflictResolveWorkflowModeState .updateCurrent sr (some sn)
          (some sc) = .ok ↔
          (sr = .completed ∧ (sn = .created ∨ sn = .running)
            ∧ (sc = .completed ∨ sc = .zombie))) := by
  decide

/-- C6: in mode IgnoreCurrent, `ValidateUpdateWorkflowModeState` accepts every
current-mutation state when no new execution is supplied, and rejects with
InvalidModeState for every combination of current state and new state when a
new execution is supplied. -/
theorem claim_C6_ignore_current :
    ∀ (sc sn : WorkflowState),
      ValidateUpdateWorkflowModeState .ignoreCurrent sc none = .ok
      ∧ ValidateUpdateWorkflowModeState .ignoreCurrent sc (some sn)
          = .invalidModeState := by
  decide

/-- C7: a bump whose expected version equals the stored value succeeds (one
row affected) and sets the stored notificationVersion to exactly expected +
1; a bump whose expected version differs from the stored value affects no
row and changes nothing; and after K successful bumps starting from v0 the
counter equals v0 + K. -/
theorem claim_C7_metadata_version_bump :
    (∀ v : Int, UpdateDomainMetadata v ⟨v⟩ = (v + 1, 1))
    ∧ (∀ v e : Int, v ≠ e → UpdateDomainMetadata v ⟨e⟩ = (v, 0))
    ∧ (∀ (v0 : Int) (k : Nat), bumpSeq v0 k = v0 + k) := by
  refine ⟨?_, ?_, ?_⟩
  · intro v
    simp [UpdateDomainMetadata]
  · intro v e h
    simp [UpdateDomainMetadata, h]
  · intro v0 k
    induction k with
    | zero => simp [bumpSeq]
    | succ n ih =>
      simp only [bumpSeq, UpdateDomainMetadata, if_pos rfl, ih]
      push_cast
      ring

/-- C7 witness: the bump from stored value 5 with expected 5 yields 6 with
one row affected, the bump from stored value 5 with expected 4 changes
nothing, and three successful bumps from 0 reach 3. -/
theorem claim_C7_metadata_version_bump_witness :
    UpdateDomainMetadata 5 ⟨5⟩ = (5 + 1, 1)
    ∧ UpdateDomainMetadata 5 ⟨4⟩ = (5, 0)
    ∧ bumpSeq 0 3 = 0 + (3 : Nat) :=
  ⟨claim_C7_metadata_version_bump.1 5,
   claim_C7_metadata_version_bump.2.1 5 4 (by decide),
   claim_C7_metadata_version_bump.2.2 0 3⟩

/-- C8: a shard write presenting expected rangeID N while the stored rangeID
has advanced to N + 1 is rejected with Fenced and leaves the shard row
completely unchanged; and whenever the caller presents a replacement row
whose rangeID is at least the stored one, the stored rangeID never
decreases through the guarded update. -/
theorem claim_C8_shard_fencing :
    (∀ (stored row : ShardsRow) (n : Int), stored.rangeID = n + 1 →
      updateShardGuarded stored n row = (stored, ShardUpdateResult.fenced))
    ∧ (∀ (stored row : ShardsRow) (e : Int), stored.rangeID ≤ row.rangeID →
      stored.rangeID ≤ (updateShardGuarded stored e row).1.rangeID) := by
  constructor
  · intro stored row n h
    unfold updateShardGuarded
    rw [h, if_neg (by omega)]
  · intro stored row e h
    unfold updateShardGuarded
    by_cases hc : stored.rangeID = e
    · rw [if_pos hc]
      unfold UpdateShards
      by_cases hs : stored.shardID = row.shardID
      · rw [if_pos hs]
        exact h
      · rw [if_neg hs]
    · rw [if_neg hc]

/-- C8 witness: with stored rangeID 5, a write presenting 4 is Fenced and
changes nothing, and a write presenting 5 with a replacement rangeID 6 does
not decrease the stored rangeID. -/
theorem claim_C8_shard_fencing_witness :
    updateShardGuarded ⟨1, 5, [], "json"⟩ 4 ⟨1, 6, [7], "json"⟩
        = (⟨1, 5, [], "json"⟩, ShardUpdateResult.fenced)
    ∧ (5 : Int) ≤
        (updateShardGuarded ⟨1, 5, [], "json"⟩ 5 ⟨1, 6, [7], "json"⟩).1.rangeID :=
  ⟨claim_C8_shard_fencing.1 ⟨1, 5, [], "json"⟩ ⟨1, 6, [7], "json"⟩ 4 (by norm_num),
   claim_C8_shard_fencing.2 ⟨1, 5, [], "json"⟩ ⟨1, 6, [7], "json"⟩ 5 (by norm_num)⟩

/-- C9 counterexample: LockDomainMetadata returns the identical result on
two metadata states whose stored notificationVersions differ (3 and 7), so
its return value cannot yield the stored version, while
SelectFromDomainMetadata distinguishes the two states by returning each
stored version. -/
theorem claim_C9_counterexample :
    LockDomainMetadata (some 3) = LockDomainMetadata (some 7)
    ∧ SelectFromDomainMetadata (some 3) = Except.ok ⟨3⟩
    ∧ SelectFromDomainMetadata (some 7) = Except.ok ⟨7⟩
    ∧ (⟨3⟩ : DomainMetadataRow) ≠ ⟨7⟩ :=
  ⟨rfl, rfl, rfl, by decide⟩

/-- C9 amended: LockDomainMetadata takes the exclusive row lock by selecting
notification_version but discards the value, returning only success (Unit)
or the driver error; only the non-locking SelectFromDomainMetadata returns
the current version to its caller. -/
theorem claim_C9_amended_lock_discards_version :
    ∀ v : Int,
      LockDomainMetadata (some v) = Except.ok ()
      ∧ SelectFromDomainMetadata (some v) = Except.ok ⟨v⟩
      ∧ LockDomainMetadata none = Except.error SqlError.noRows :=
  fun _ => ⟨rfl, rfl, rfl⟩

/-- Helper: a keyed lookup through selectFromDomain that returns
successfully always returns a one-element slice. -/
theorem selectFromDomain_ok_length (db : List DomainRow)
    (fid fname fgt : Option String) (fps : Option Int) (rows : List DomainRow)
    (hok : (selectFromDomain db ⟨fid, fname, fgt, fps⟩).1 = Except.ok rows) :
    rows.length = 1 := by
  cases fid with
  | some i =>
    simp only [selectFromDomain] at hok
    cases hfind : db.find? (fun r => r.id = i) with
    | some r =>
      rw [hfind] at hok
      simp at hok
      simp [← hok]
    | none =>
      rw [hfind] at hok
      simp at hok
  | none =>
    cases fname with
    | some n =>
      simp only [selectFromDomain] at hok
      cases hfind : db.find? (fun r => r.name = n) with
      | some r =>
        rw [hfind] at hok
        simp at hok
        simp [← hok]
      | none =>
        rw [hfind] at hok
        simp at hok
    | none =>
      simp only [selectFromDomain] at hok
      simp at hok
      simp [← hok]

/-- C10: with ID nil, Name nil and PageSize nil or not positive,
SelectFromDomain returns errMissingArgs and issues no query; when ID is set
the single query issued is the by-ID lookup even if Name is also set; and
every successful keyed lookup returns a slice of exactly one row. -/
theorem claim_C10_select_from_domain :
    (∀ (db : List DomainRow) (f : DomainFilter),
      f.id = none → f.name = none → (∀ p : Int, f.pageSize = some p → p ≤ 0) →
      SelectFromDomain db f = (Except.error SqlError.missingArgs, []))
    ∧ (∀ (db : List DomainRow) (f : DomainFilter) (i : String),
      f.id = some i →
      (SelectFromDomain db f).2 = [DomainQuery.byID shardID i])
    ∧ (∀ (db : List DomainRow) (f : DomainFilter) (rows : List DomainRow),
      (f.id.isSome || f.name.isSome) = true →
      (SelectFromDomain db f).1 = Except.ok rows → rows.length = 1) := by
  refine ⟨?_, ?_, ?_⟩
  · intro db f h1 h2 h3
    have hps : pageSizeSet f = false := by
      unfold pageSizeSet
      cases hp : f.pageSize with
      | none => rfl
      | some p =>
        have := h3 p hp
        simp
        omega
    simp [SelectFromDomain, h1, h2, hps]
  · intro db f i h
    simp [SelectFromDomain, h, selectFromDomain]
  · intro db f rows hkey hok
    obtain ⟨fid, fname, fgt, fps⟩ := f
    unfold SelectFromDomain at hok
    rw [if_pos hkey] at hok
    exact selectFromDomain_ok_length db fid fname fgt fps rows hok

/-- C10 witness: the all-nil filter with PageSize 0 yields errMissingArgs
with no query issued; a filter with both ID and Name set issues only the
by-ID query; and the successful lookup of row d1 returns exactly one row. -/
theorem claim_C10_select_from_domain_witness :
    SelectFromDomain [] ⟨none, none, none, some 0⟩
        = (Except.error SqlError.missingArgs, [])
    ∧ (SelectFromDomain [⟨"d1", "n1", true, [], "json"⟩]
        ⟨some "d1", some "n2", none, none⟩).2 = [DomainQuery.byID shardID "d1"]
    ∧ ([(⟨"d1", "n1", true, [], "json"⟩ : DomainRow)]).length = 1 :=
  ⟨claim_C10_select_from_domain.1 [] ⟨none, none, none, some 0⟩ rfl rfl
      (fun p h => by injection h with h'; omega),
   claim_C10_select_from_domain.2.1 _ _ "d1" rfl,
   claim_C10_select_from_domain.2.2 [⟨"d1", "n1", true, [], "json"⟩]
      ⟨some "d1", some "n2", none, none⟩ [⟨"d1", "n1", true, [], "json"⟩]
      rfl rfl⟩

end Cadence
